import Mathlib

/-!
Verification development for the atxp-minimal-demo MCP server
(`src/server.ts`).  The server exposes one paid tool `add(a, b)`.  Tool
execution is gated behind payment verification; when the charge is unpaid
the server raises an elicitation round-trip with the client over the MCP
session, races it against a 30 second timeout, and resumes or aborts the
call according to the outcome.

The shallow embedding below models, directly from the TypeScript source:

* the payment-error payload (`error.code`, `error.data.paymentRequestUrl`,
  `error.data.chargeAmount`) thrown by the `requirePayment` collaborator;
* the `add` tool handler (`server.ts` lines 22-105) as a pure function
  from its environment (session registry snapshot, outcome of each
  `requirePayment` call, outcome of the `Promise.race` between the
  elicitation response and the timeout) to a trace of observable actions
  and a result (returned tool result, or thrown error);
* the `Promise.race([elicitationPromise, timeoutPromise])` pending-wait
  machine (`server.ts` lines 58-88): one pending entry, settled exactly
  once by the first of {response, timer at 30000 ms}, later events no-ops;
* the MCP SDK wrapper that converts an error thrown by a tool callback
  into a tool-level `isError` result;
* the HTTP POST dispatch (`server.ts` lines 146-195): capability check on
  initialization, session reuse, session creation, bad-request fallback,
  plus the `transport.onclose` cleanup (lines 182-189) that removes the
  session from both registry maps.

`requirePayment` and the MCP transport are external collaborators
(npm packages `@atxp/server` and `@modelcontextprotocol/sdk`); their
outcomes enter the model as parameters, matching the collaborator
interfaces in the specification (verify -> ok | PaymentRequired, race
winner, SDK error-to-result conversion).
-/

/-- Payload of `error.data` on a payment-required failure:
`paymentRequestUrl` and optional `chargeAmount` (a decimal rendered as a
string; `BigNumber(0.01).toString()` is `"0.01"`). -/
structure ErrData where
  paymentRequestUrl : Option String
  chargeAmount : Option String
deriving DecidableEq, Repr

/-- A thrown payment/verification error: `code` (absent on plain errors),
`message`, and optional structured `data`. -/
structure PayError where
  code : Option Int
  message : String
  data : Option ErrData
deriving DecidableEq, Repr

/-- Outcome of one `requirePayment({price})` call: resolves (already
paid), or rejects with a structured error. -/
inductive PayOutcome where
  | paid
  | failed (e : PayError)
deriving DecidableEq, Repr

/-- One item of a tool result's `content` array. -/
structure ContentItem where
  type : String
  text : String
deriving DecidableEq, Repr

/-- A tool-level result: `content` plus the `isError` flag.  This is a
successful JSON-RPC response at the envelope level even when
`isError = true`. -/
structure ToolResult where
  content : List ContentItem
  isError : Bool
deriving DecidableEq, Repr

/-- An error thrown (rather than returned) by the tool handler: either a
rethrown payment error or a plain JS `Error` with only a message (the
timeout rejection). -/
inductive Thrown where
  | payErr (e : PayError)
  | jsError (message : String)
deriving DecidableEq, Repr

/-- Result of running the tool callback: a returned `ToolResult` or a
thrown error. -/
inductive HandlerResult where
  | ok (r : ToolResult)
  | thrown (e : Thrown)
deriving DecidableEq, Repr

/-- Parameters of the one elicitation request sent by
`serverInstance.server.elicitInput` (`server.ts` lines 77-82). -/
structure ElicitParams where
  mode : String
  elicitationId : String
  url : String
  message : String
  relatedRequestId : Nat
deriving DecidableEq, Repr

/-- Observable actions of one run of the `add` handler: the charge
argument of each `requirePayment` call, the elicitation requests pushed
to the client, and how many times the gated continuation (the `a + b`
return at line 104) ran. -/
structure ToolTrace where
  payCalls : List String
  elicitations : List ElicitParams
  continuationRuns : Nat
deriving DecidableEq, Repr

/-- A registered `McpServer` instance; only its `isConnected()` state is
observable to the handler. -/
structure ServerInst where
  connected : Bool
deriving DecidableEq, Repr

/-- Winner of `Promise.race([elicitationPromise, timeoutPromise])`: the
client's elicitation response (with its `action` string), or the timer's
rejection. -/
inductive RaceOutcome where
  | response (action : String)
  | timedOut
deriving DecidableEq, Repr

/-- `BigNumber(0.01).toString()` — the price of the `add` tool. -/
def price : String := "0.01"

/-- Message of the timer's rejection (`server.ts` line 62). -/
def timeoutMessage : String := "Elicitation request timed out after 30 seconds"

/-- Text of the declined tool result (`server.ts` line 100). -/
def declinedText : String := "Payment declined. Tool cannot execute without payment."

/-- Environment of one `add` tool call: the imported
`PAYMENT_REQUIRED_ERROR_CODE` constant, the call arguments, the session
and request ids from `extra`, the freshly generated elicitation id, a
snapshot of `serversBySession`, and the outcomes supplied by the
collaborators (first `requirePayment`, the race, second
`requirePayment`). -/
structure ToolEnv where
  prc : Int
  a : Int
  b : Int
  sessionId : String
  requestId : Nat
  elicitationId : String
  servers : List (String × ServerInst)
  pay1 : PayOutcome
  race : RaceOutcome
  pay2 : PayOutcome
deriving DecidableEq, Repr

/-- The `add` tool handler, `server.ts` lines 22-105, as a function from
its environment to the trace of observable actions and the handler
result.  Control flow mirrors the source: `requirePayment` first; on a
non-payment code rethrow; missing/empty `paymentRequestUrl` rethrow;
unknown or disconnected session rethrow; otherwise send one elicitation
and await the race; timeout rejection propagates; `accept` re-runs
`requirePayment` with the same `{price}` charge and returns the sum or a
"Payment not completed" failure; any other action returns the declined
failure. -/
def addTool (env : ToolEnv) : ToolTrace × HandlerResult :=
  match env.pay1 with
  | .paid =>
      (⟨[price], [], 1⟩, .ok ⟨[⟨"text", toString (env.a + env.b)⟩], false⟩)
  | .failed e =>
      if e.code != some env.prc && e.code != some (-30402) then
        (⟨[price], [], 0⟩, .thrown (.payErr e))
      else
        let d := e.data.getD ⟨none, none⟩
        match d.paymentRequestUrl with
        | none => (⟨[price], [], 0⟩, .thrown (.payErr e))
        | some url =>
          if url = "" then
            (⟨[price], [], 0⟩, .thrown (.payErr e))
          else
            let chargeAmount := d.chargeAmount.getD price
            match List.lookup env.sessionId env.servers with
            | none => (⟨[price], [], 0⟩, .thrown (.payErr e))
            | some inst =>
              if !inst.connected then
                (⟨[price], [], 0⟩, .thrown (.payErr e))
              else
                let elicit : ElicitParams :=
                  ⟨"url", env.elicitationId, url,
                    "Payment of $" ++ chargeAmount ++
                      " is required. Please approve to continue.",
                    env.requestId⟩
                match env.race with
                | .timedOut =>
                    (⟨[price], [elicit], 0⟩, .thrown (.jsError timeoutMessage))
                | .response action =>
                    if action = "accept" then
                      match env.pay2 with
                      | .paid =>
                          (⟨[price, price], [elicit], 1⟩,
                            .ok ⟨[⟨"text", toString (env.a + env.b)⟩], false⟩)
                      | .failed _ =>
                          (⟨[price, price], [elicit], 0⟩,
                            .ok ⟨[⟨"text", "Payment not completed. Please complete at "
                                    ++ url⟩], true⟩)
                    else
                      (⟨[price], [elicit], 0⟩,
                        .ok ⟨[⟨"text", declinedText⟩], true⟩)

/-- The MCP SDK wrapper around a tool callback: a thrown error becomes a
tool-level result with `isError = true` and the error's message as text;
a returned result passes through unchanged. -/
def callTool (r : HandlerResult) : ToolResult :=
  match r with
  | .ok res => res
  | .thrown (.payErr e) => ⟨[⟨"text", e.message⟩], true⟩
  | .thrown (.jsError m) => ⟨[⟨"text", m⟩], true⟩

/-- Timer budget of the elicitation wait, in milliseconds
(`setTimeout(..., 30000)`, `server.ts` line 63). -/
def elicitationTimeoutMs : Nat := 30000

/-- An event acting on the pending wait of one suspended call: an inbound
elicitation response, or the firing of the timeout timer. -/
inductive WaitEvent where
  | response (action : String)
  | timerFire
deriving DecidableEq, Repr

/-- How a pending wait was settled. -/
inductive WaitOutcome where
  | resolved (action : String)
  | timedOut
deriving DecidableEq, Repr

/-- The pending-wait entry of one suspended call: `settled = none` while
the entry is pending, `settled = some o` once `Promise.race` has settled
(the entry is then gone — a promise settles at most once). -/
structure Wait where
  settled : Option WaitOutcome
deriving DecidableEq, Repr

/-- One step of the pending wait: the first event settles it (response
wins with `resolved`, timer wins with `timedOut`); every event arriving
after settlement is a no-op, by promise semantics. -/
def waitStep (w : Wait) (e : WaitEvent) : Wait :=
  match w.settled with
  | some _ => w
  | none =>
    match e with
    | .response a => ⟨some (.resolved a)⟩
    | .timerFire => ⟨some .timedOut⟩

/-- Run a fresh pending wait through a time-ordered list of events. -/
def runWait (events : List WaitEvent) : Wait :=
  events.foldl waitStep ⟨none⟩

/-- Event sequence seen by the pending wait, given the arrival times (in
milliseconds after the request was sent) of the client's responses: the
timer fires at `elicitationTimeoutMs`, responses arriving strictly
earlier precede it, the rest follow it. -/
def scheduleEvents (arrivals : List (Nat × String)) : List WaitEvent :=
  ((arrivals.filter (fun p => p.1 < elicitationTimeoutMs)).map
      (fun p => WaitEvent.response p.2))
    ++ [WaitEvent.timerFire]
    ++ ((arrivals.filter (fun p => !(p.1 < elicitationTimeoutMs))).map
      (fun p => WaitEvent.response p.2))

/-- Shape of a JSON-RPC request body as far as the POST dispatch reads
it: `method`, truthiness of `params.capabilities.elicitation`, and `id`. -/
structure PostBody where
  method : Option String
  hasElicitationCap : Bool
  id : Option Int
deriving DecidableEq, Repr

/-- `isInitializeRequest(req.body)` from the MCP SDK: the body's method
is `"initialize"`. -/
def isInitRequest (b : PostBody) : Bool :=
  b.method == some "initialize"

/-- JavaScript `(req.body as any)?.id || null`: a missing or falsy (0)
id becomes null. -/
def jsIdOrNull (id : Option Int) : Option Int :=
  match id with
  | some v => if v = 0 then none else some v
  | none => none

/-- JavaScript truthiness of the `mcp-session-id` header: present and
non-empty. -/
def sidTruthy (s : Option String) : Bool :=
  match s with
  | none => false
  | some v => v != ""

/-- The session registry: the global `serversBySession` and
`transportsBySession` maps, as association lists from session id to the
(server instance, transport) identities. -/
structure Registry where
  servers : List (String × Nat)
  transports : List (String × Nat)
deriving DecidableEq, Repr

/-- Outcome of the POST dispatch: an envelope-level error reply (HTTP
status, JSON-RPC code/message/id), reuse of an existing session, or
creation of a new one. -/
inductive PostOutcome where
  | envelopeError (status : Nat) (code : Int) (message : String) (id : Option Int)
  | reused (sid : String)
  | created (sid : String)
deriving DecidableEq, Repr

/-- Rejection message of the capability check (`server.ts` line 158). -/
def capabilityErrorMsg : String :=
  "Client does not support elicitation. URL mode elicitation is required."

/-- The POST dispatch, `server.ts` lines 146-195: reject an
initialization request without the elicitation capability with `-32602`
before touching the registry; reuse the session when the header is
truthy and registered; create a session (registering the fresh id in
both maps together, via `onsessioninitialized`) when the header is
falsy and the request is an initialization; otherwise reply
`-32000 Bad Request` and change nothing. -/
def handlePost (st : Registry) (body : PostBody) (sessionId : Option String)
    (freshSid : String) (srv trp : Nat) : Registry × PostOutcome :=
  if isInitRequest body && !body.hasElicitationCap then
    (st, .envelopeError 400 (-32602) capabilityErrorMsg (jsIdOrNull body.id))
  else if sidTruthy sessionId && (List.lookup (sessionId.getD "") st.transports).isSome then
    (st, .reused (sessionId.getD ""))
  else if !sidTruthy sessionId && isInitRequest body then
    (⟨(freshSid, srv) :: st.servers, (freshSid, trp) :: st.transports⟩, .created freshSid)
  else
    (st, .envelopeError 400 (-32000) "Bad Request" (jsIdOrNull body.id))

/-- `transport.onclose` (`server.ts` lines 182-189): when a session's
channel closes, its id is deleted from both registry maps in the same
handler. -/
def Registry.close (st : Registry) (sid : String) : Registry :=
  ⟨st.servers.filter (fun p => p.1 != sid), st.transports.filter (fun p => p.1 != sid)⟩

/-- Registry well-formedness: both maps hold exactly the same session
ids, in the same order, with no duplicates. -/
def Registry.wf (st : Registry) : Prop :=
  st.servers.map Prod.fst = st.transports.map Prod.fst ∧
    (st.servers.map Prod.fst).Nodup

/-- Deleting a key from an association list deletes it from the key
list. -/
theorem map_fst_filter_bne {α : Type} (l : List (String × α)) (sid : String) :
    (l.filter (fun p => p.1 != sid)).map Prod.fst
      = (l.map Prod.fst).filter (fun k => k != sid) := by
  induction l with
  | nil => rfl
  | cons p t ih =>
      by_cases h : p.1 = sid <;> simp [List.filter_cons, h, ih]

/-- A key is found in an association list exactly when it occurs among
the keys. -/
theorem lookup_isSome_iff {α : Type} (l : List (String × α)) (k : String) :
    (List.lookup k l).isSome ↔ k ∈ l.map Prod.fst := by
  induction l with
  | nil => simp [List.lookup]
  | cons p t ih =>
      obtain ⟨k', v⟩ := p
      by_cases h : k = k'
      · subst h; simp [List.lookup]
      · have hb : (k == k') = false := by
          cases hbe : k == k' with
          | false => rfl
          | true => exact absurd (eq_of_beq hbe) h
        simp [List.lookup, hb, ih, h]

/-- After deleting a key from an association list, looking it up fails. -/
theorem lookup_filter_self {α : Type} (l : List (String × α)) (sid : String) :
    List.lookup sid (l.filter (fun p => p.1 != sid)) = none := by
  induction l with
  | nil => rfl
  | cons p t ih =>
      obtain ⟨k', v⟩ := p
      by_cases h : k' = sid
      · simp [List.filter_cons, h, ih]
      · have hb : (sid == k') = false := by
          cases hbe : sid == k' with
          | false => rfl
          | true => exact absurd (eq_of_beq hbe).symm h
        simp [List.filter_cons, h, List.lookup, hb, ih]

/-- An already-settled pending wait absorbs every further event. -/
theorem foldl_waitStep_settled (evs : List WaitEvent) (w : Wait) (o : WaitOutcome)
    (h : w.settled = some o) : evs.foldl waitStep w = w := by
  induction evs with
  | nil => rfl
  | cons e t ih =>
      have hw : waitStep w e = w := by
        obtain ⟨s⟩ := w
        cases s with
        | none => simp at h
        | some o' => rfl
      rw [List.foldl_cons, hw, ih]

/-- C4: for every tool call whose charge is already paid (the first
`requirePayment` resolves), no elicitation request is ever sent and the
tool returns a non-error content result whose text is the decimal
rendering of `a + b`. -/
theorem addTool_paid_no_elicitation (env : ToolEnv) (h : env.pay1 = .paid) :
    (addTool env).1.elicitations = [] ∧
      (addTool env).2 = .ok ⟨[⟨"text", toString (env.a + env.b)⟩], false⟩ := by
  simp [addTool, h]

/-- C4 witness: `add(2, 3)` with payment already satisfied returns `"5"`
with no elicitation traffic. -/
theorem addTool_paid_no_elicitation_witness :
    (addTool ⟨-32402, 2, 3, "s1", 7, "e1", [("s1", ⟨true⟩)], .paid, .timedOut, .paid⟩).1.elicitations = [] ∧
      (addTool ⟨-32402, 2, 3, "s1", 7, "e1", [("s1", ⟨true⟩)], .paid, .timedOut, .paid⟩).2
        = .ok ⟨[⟨"text", "5"⟩], false⟩ :=
  addTool_paid_no_elicitation ⟨-32402, 2, 3, "s1", 7, "e1", [("s1", ⟨true⟩)], .paid, .timedOut, .paid⟩ rfl

/-- C9: a failure raised during payment verification whose code is
neither of the two recognized payment-required codes is rethrown
unmodified by the Payment Gate: no elicitation is sent, the continuation
never runs, and the thrown value is the original error. -/
theorem addTool_non_payment_error_propagated (env : ToolEnv) (e : PayError)
    (h1 : env.pay1 = .failed e)
    (hc1 : e.code ≠ some env.prc) (hc2 : e.code ≠ some (-30402)) :
    (addTool env).2 = .thrown (.payErr e) ∧
      (addTool env).1.elicitations = [] ∧
      (addTool env).1.continuationRuns = 0 := by
  have hcond : (e.code != some env.prc && e.code != some (-30402)) = true := by
    simp [bne_iff_ne, hc1, hc2]
  simp [addTool, h1, hcond]

/-- C9 witness: an error with code -32600 is rethrown as-is. -/
theorem addTool_non_payment_error_propagated_witness :
    (addTool ⟨-32402, 2, 3, "s1", 7, "e1", [("s1", ⟨true⟩)],
        .failed ⟨some (-32600), "boom", none⟩, .timedOut, .paid⟩).2
      = .thrown (.payErr ⟨some (-32600), "boom", none⟩) :=
  (addTool_non_payment_error_propagated
    ⟨-32402, 2, 3, "s1", 7, "e1", [("s1", ⟨true⟩)],
      .failed ⟨some (-32600), "boom", none⟩, .timedOut, .paid⟩
    ⟨some (-32600), "boom", none⟩ rfl (by decide) (by decide)).1

/-- C3: an initialization request whose `params.capabilities.elicitation`
is missing or falsy is rejected with envelope error -32602 and a message
beginning "Client does not support elicitation", and the registry is
returned unchanged: neither `serversBySession` nor `transportsBySession`
gains an entry. -/
theorem init_without_capability_rejected (st : Registry) (body : PostBody)
    (sessionId : Option String) (freshSid : String) (srv trp : Nat)
    (hinit : isInitRequest body = true) (hcap : body.hasElicitationCap = false) :
    handlePost st body sessionId freshSid srv trp =
        (st, .envelopeError 400 (-32602) capabilityErrorMsg (jsIdOrNull body.id)) ∧
      capabilityErrorMsg
        = "Client does not support elicitation" ++ ". URL mode elicitation is required." := by
  refine ⟨?_, rfl⟩
  simp [handlePost, hinit, hcap]

/-- C3 witness: an init request without the elicitation capability on an
empty registry is rejected and the registry stays empty. -/
theorem init_without_capability_rejected_witness :
    handlePost ⟨[], []⟩ ⟨some "initialize", false, some 1⟩ none "fresh" 0 0
      = (⟨[], []⟩, .envelopeError 400 (-32602) capabilityErrorMsg (some 1)) :=
  (init_without_capability_rejected ⟨[], []⟩ ⟨some "initialize", false, some 1⟩
    none "fresh" 0 0 (by decide) rfl).1

/-- C8: a non-initialization request whose session header is missing
(falsy) or does not resolve in the registry gets the envelope error
`{code := -32000, message := "Bad Request"}` and the registry is
returned unchanged: no session is created, destroyed or modified. -/
theorem non_init_unknown_session_bad_request (st : Registry) (body : PostBody)
    (sessionId : Option String) (freshSid : String) (srv trp : Nat)
    (hinit : isInitRequest body = false)
    (hsess : sidTruthy sessionId = false ∨
      List.lookup (sessionId.getD "") st.transports = none) :
    handlePost st body sessionId freshSid srv trp =
      (st, .envelopeError 400 (-32000) "Bad Request" (jsIdOrNull body.id)) := by
  rcases hsess with h | h <;> simp [handlePost, hinit, h]

/-- C8 witness: a `tools/call` with an unknown session id gets Bad
Request and the registry is untouched. -/
theorem non_init_unknown_session_bad_request_witness :
    handlePost ⟨[("a", 1)], [("a", 2)]⟩ ⟨some "tools/call", true, some 3⟩
        (some "ghost") "fresh" 0 0
      = (⟨[("a", 1)], [("a", 2)]⟩, .envelopeError 400 (-32000) "Bad Request" (some 3)) :=
  non_init_unknown_session_bad_request ⟨[("a", 1)], [("a", 2)]⟩
    ⟨some "tools/call", true, some 3⟩ (some "ghost") "fresh" 0 0
    (by decide) (Or.inr (by decide))

/-- C1: after the client accepts the elicitation, the Payment Gate
re-verifies payment by calling `requirePayment` again with the identical
`{price}` charge of the original PaymentRequired failure (the trace
shows exactly the two verification calls and no other ledger operation,
so no fresh charge is opened by the gate) and never sends a second
elicitation; if re-verification still fails, the call ends in a
tool-level failure "Payment not completed. Please complete at <url>"
carrying the original `paymentRequestUrl`; if it succeeds, the tool
returns the sum (`add(2,3)` yields `"5"`). -/
theorem addTool_accept_reverifies (env : ToolEnv) (e : PayError) (d : ErrData)
    (url : String) (inst : ServerInst)
    (h1 : env.pay1 = .failed e)
    (hc : e.code = some env.prc ∨ e.code = some (-30402))
    (hd : e.data = some d) (hu : d.paymentRequestUrl = some url) (hne : url ≠ "")
    (hs : List.lookup env.sessionId env.servers = some inst)
    (hconn : inst.connected = true)
    (hr : env.race = .response "accept") :
    (addTool env).1.payCalls = [price, price] ∧
      (addTool env).1.elicitations.length = 1 ∧
      (env.pay2 = .paid →
        (addTool env).2 = .ok ⟨[⟨"text", toString (env.a + env.b)⟩], false⟩) ∧
      (∀ e2, env.pay2 = .failed e2 →
        (addTool env).2
          = .ok ⟨[⟨"text", "Payment not completed. Please complete at " ++ url⟩], true⟩) := by
  have hcond : (e.code != some env.prc && e.code != some (-30402)) = false := by
    rcases hc with hc | hc <;> simp [hc]
  cases hp2 : env.pay2 <;>
    simp [addTool, h1, hcond, hd, hu, hne, hs, hconn, hr, hp2]

/-- C1 witness: accept then paid yields `"5"` after exactly two
verification calls with the same charge. -/
theorem addTool_accept_reverifies_witness :
    (addTool ⟨-32402, 2, 3, "s1", 7, "e1", [("s1", ⟨true⟩)],
        .failed ⟨some (-32402), "Payment required", some ⟨some "https://pay.example/x", some "0.01"⟩⟩,
        .response "accept", .paid⟩).1.payCalls = [price, price] ∧
      (addTool ⟨-32402, 2, 3, "s1", 7, "e1", [("s1", ⟨true⟩)],
        .failed ⟨some (-32402), "Payment required", some ⟨some "https://pay.example/x", some "0.01"⟩⟩,
        .response "accept", .paid⟩).2 = .ok ⟨[⟨"text", "5"⟩], false⟩ := by
  have h := addTool_accept_reverifies
    ⟨-32402, 2, 3, "s1", 7, "e1", [("s1", ⟨true⟩)],
      .failed ⟨some (-32402), "Payment required", some ⟨some "https://pay.example/x", some "0.01"⟩⟩,
      .response "accept", .paid⟩
    ⟨some (-32402), "Payment required", some ⟨some "https://pay.example/x", some "0.01"⟩⟩
    ⟨some "https://pay.example/x", some "0.01"⟩ "https://pay.example/x" ⟨true⟩
    rfl (Or.inl rfl) rfl rfl (by decide) (by decide) rfl rfl
  exact ⟨h.1, h.2.2.1 rfl⟩

/-- C5: when the elicitation response carries any action other than
`accept`, the gated continuation never runs (the sum is not computed),
no second `requirePayment` call is made, and the call short-circuits to
the tool-level declined result with `isError = true` and text
"Payment declined. Tool cannot execute without payment.". -/
theorem addTool_decline_short_circuits (env : ToolEnv) (e : PayError) (d : ErrData)
    (url action : String) (inst : ServerInst)
    (h1 : env.pay1 = .failed e)
    (hc : e.code = some env.prc ∨ e.code = some (-30402))
    (hd : e.data = some d) (hu : d.paymentRequestUrl = some url) (hne : url ≠ "")
    (hs : List.lookup env.sessionId env.servers = some inst)
    (hconn : inst.connected = true)
    (hr : env.race = .response action) (hact : action ≠ "accept") :
    (addTool env).2 = .ok ⟨[⟨"text", declinedText⟩], true⟩ ∧
      (addTool env).1.continuationRuns = 0 ∧
      (addTool env).1.payCalls = [price] := by
  have hcond : (e.code != some env.prc && e.code != some (-30402)) = false := by
    rcases hc with hc | hc <;> simp [hc]
  simp [addTool, h1, hcond, hd, hu, hne, hs, hconn, hr, hact]

/-- C5 witness: a `decline` response yields the declined failure and the
continuation never runs. -/
theorem addTool_decline_short_circuits_witness :
    (addTool ⟨-32402, 2, 3, "s1", 7, "e1", [("s1", ⟨true⟩)],
        .failed ⟨some (-32402), "Payment required", some ⟨some "https://pay.example/x", some "0.01"⟩⟩,
        .response "decline", .paid⟩).2 = .ok ⟨[⟨"text", declinedText⟩], true⟩ ∧
      (addTool ⟨-32402, 2, 3, "s1", 7, "e1", [("s1", ⟨true⟩)],
        .failed ⟨some (-32402), "Payment required", some ⟨some "https://pay.example/x", some "0.01"⟩⟩,
        .response "decline", .paid⟩).1.continuationRuns = 0 := by
  have h := addTool_decline_short_circuits
    ⟨-32402, 2, 3, "s1", 7, "e1", [("s1", ⟨true⟩)],
      .failed ⟨some (-32402), "Payment required", some ⟨some "https://pay.example/x", some "0.01"⟩⟩,
      .response "decline", .paid⟩
    ⟨some (-32402), "Payment required", some ⟨some "https://pay.example/x", some "0.01"⟩⟩
    ⟨some "https://pay.example/x", some "0.01"⟩ "https://pay.example/x" "decline" ⟨true⟩
    rfl (Or.inl rfl) rfl rfl (by decide) (by decide) rfl rfl (by decide)
  exact ⟨h.1, h.2.1⟩

/-- C6: a tool call that hits PaymentRequired with a usable descriptor
and a connected session sends exactly one elicitation request — mode
`"url"`, the freshly generated elicitation id, the descriptor's
`paymentRequestUrl`, and the original call's request id as correlation —
whatever the race outcome and the second verification turn out to be; in
particular no second elicitation is ever issued for the same call. -/
theorem addTool_unpaid_single_elicitation (env : ToolEnv) (e : PayError) (d : ErrData)
    (url : String) (inst : ServerInst)
    (h1 : env.pay1 = .failed e)
    (hc : e.code = some env.prc ∨ e.code = some (-30402))
    (hd : e.data = some d) (hu : d.paymentRequestUrl = some url) (hne : url ≠ "")
    (hs : List.lookup env.sessionId env.servers = some inst)
    (hconn : inst.connected = true) :
    (addTool env).1.elicitations
      = [⟨"url", env.elicitationId, url,
          "Payment of $" ++ d.chargeAmount.getD price
            ++ " is required. Please approve to continue.",
          env.requestId⟩] := by
  have hcond : (e.code != some env.prc && e.code != some (-30402)) = false := by
    rcases hc with hc | hc <;> simp [hc]
  cases hrc : env.race with
  | timedOut => simp [addTool, h1, hcond, hd, hu, hne, hs, hconn, hrc]
  | response action =>
      by_cases ha : action = "accept"
      · cases hp2 : env.pay2 <;>
          simp [addTool, h1, hcond, hd, hu, hne, hs, hconn, hrc, ha, hp2]
      · simp [addTool, h1, hcond, hd, hu, hne, hs, hconn, hrc, ha]

/-- C6 witness: the unpaid call sends exactly the one elicitation with
mode url, the generated id, the descriptor url and the request id. -/
theorem addTool_unpaid_single_elicitation_witness :
    (addTool ⟨-32402, 2, 3, "s1", 7, "e1", [("s1", ⟨true⟩)],
        .failed ⟨some (-32402), "Payment required", some ⟨some "https://pay.example/x", some "0.01"⟩⟩,
        .response "decline", .paid⟩).1.elicitations
      = [⟨"url", "e1", "https://pay.example/x",
          "Payment of $0.01 is required. Please approve to continue.", 7⟩] :=
  addTool_unpaid_single_elicitation
    ⟨-32402, 2, 3, "s1", 7, "e1", [("s1", ⟨true⟩)],
      .failed ⟨some (-32402), "Payment required", some ⟨some "https://pay.example/x", some "0.01"⟩⟩,
      .response "decline", .paid⟩
    ⟨some (-32402), "Payment required", some ⟨some "https://pay.example/x", some "0.01"⟩⟩
    ⟨some "https://pay.example/x", some "0.01"⟩ "https://pay.example/x" ⟨true⟩
    rfl (Or.inl rfl) rfl rfl (by decide) (by decide) rfl

/-- C10: when the PaymentRequired failure lacks a usable
`paymentRequestUrl` (no `data`, no url, or an empty url), or the
session id has no registered server instance, or the instance is not
connected, no elicitation is attempted and the original payment-required
error is rethrown unchanged. -/
theorem addTool_elicitation_preconditions (env : ToolEnv) (e : PayError)
    (h1 : env.pay1 = .failed e)
    (hc : e.code = some env.prc ∨ e.code = some (-30402))
    (hpre : e.data = none
      ∨ (∃ d, e.data = some d ∧
          (d.paymentRequestUrl = none ∨ d.paymentRequestUrl = some ""))
      ∨ List.lookup env.sessionId env.servers = none
      ∨ (∃ inst, List.lookup env.sessionId env.servers = some inst ∧
          inst.connected = false)) :
    (addTool env).2 = .thrown (.payErr e) ∧
      (addTool env).1.elicitations = [] := by
  have hcond : (e.code != some env.prc && e.code != some (-30402)) = false := by
    rcases hc with hc | hc <;> simp [hc]
  rcases hpre with hdata | ⟨d, hd, hurl⟩ | hlook | ⟨inst, hlook, hconn⟩
  · simp [addTool, h1, hcond, hdata]
  · rcases hurl with hurl | hurl <;> simp [addTool, h1, hcond, hd, hurl]
  · rcases hdata : e.data with _ | d
    · simp [addTool, h1, hcond, hdata]
    · rcases hurl : d.paymentRequestUrl with _ | url
      · simp [addTool, h1, hcond, hdata, hurl]
      · by_cases hu0 : url = ""
        · simp [addTool, h1, hcond, hdata, hurl, hu0]
        · simp [addTool, h1, hcond, hdata, hurl, hu0, hlook]
  · rcases hdata : e.data with _ | d
    · simp [addTool, h1, hcond, hdata]
    · rcases hurl : d.paymentRequestUrl with _ | url
      · simp [addTool, h1, hcond, hdata, hurl]
      · by_cases hu0 : url = ""
        · simp [addTool, h1, hcond, hdata, hurl, hu0]
        · simp [addTool, h1, hcond, hdata, hurl, hu0, hlook, hconn]

/-- C10 witness: a payment-required failure whose payload has no
`paymentRequestUrl` is rethrown unchanged and no elicitation is sent. -/
theorem addTool_elicitation_preconditions_witness :
    (addTool ⟨-32402, 2, 3, "s1", 7, "e1", [("s1", ⟨true⟩)],
        .failed ⟨some (-32402), "Payment required", none⟩, .timedOut, .paid⟩).2
      = .thrown (.payErr ⟨some (-32402), "Payment required", none⟩) ∧
      (addTool ⟨-32402, 2, 3, "s1", 7, "e1", [("s1", ⟨true⟩)],
        .failed ⟨some (-32402), "Payment required", none⟩, .timedOut, .paid⟩).1.elicitations = [] :=
  addTool_elicitation_preconditions
    ⟨-32402, 2, 3, "s1", 7, "e1", [("s1", ⟨true⟩)],
      .failed ⟨some (-32402), "Payment required", none⟩, .timedOut, .paid⟩
    ⟨some (-32402), "Payment required", none⟩ rfl (Or.inl rfl) (Or.inl rfl)

/-- C2: the pending wait of a suspended call is raced against a timer
with the fixed 30000 ms budget; if no matching response arrives before
expiry the wait settles as timed out (the pending entry is gone), an
already-settled wait absorbs every later event (a late response is a
no-op and the call is never resumed twice), and the timeout surfaces to
the caller as a tool-level `isError` result whose text is the timeout
message — which differs from the declined text. -/
theorem elicitation_wait_timeout (arrivals : List (Nat × String))
    (hlate : ∀ p ∈ arrivals, ¬ p.1 < elicitationTimeoutMs) :
    runWait (scheduleEvents arrivals) = ⟨some .timedOut⟩ ∧
      (∀ (w : Wait) (o : WaitOutcome) (e : WaitEvent),
        w.settled = some o → waitStep w e = w) ∧
      (∀ (env : ToolEnv) (e : PayError) (d : ErrData) (url : String) (inst : ServerInst),
        env.pay1 = .failed e →
        (e.code = some env.prc ∨ e.code = some (-30402)) →
        e.data = some d → d.paymentRequestUrl = some url → url ≠ "" →
        List.lookup env.sessionId env.servers = some inst → inst.connected = true →
        env.race = .timedOut →
        callTool (addTool env).2 = ⟨[⟨"text", timeoutMessage⟩], true⟩) ∧
      timeoutMessage ≠ declinedText := by
  refine ⟨?_, ?_, ?_, by decide⟩
  · have hnil : (arrivals.filter fun p => p.1 < elicitationTimeoutMs) = [] := by
      rw [List.filter_eq_nil_iff]
      intro a ha
      simpa using hlate a ha
    unfold runWait scheduleEvents
    rw [hnil]
    simp only [List.map_nil, List.nil_append, List.singleton_append, List.foldl_cons]
    exact foldl_waitStep_settled _ _ WaitOutcome.timedOut rfl
  · intro w o e h
    obtain ⟨s⟩ := w
    cases s with
    | none => simp at h
    | some o' => rfl
  · intro env e d url inst h1 hc hd hu hne hs hconn hr
    have hcond : (e.code != some env.prc && e.code != some (-30402)) = false := by
      rcases hc with hc | hc <;> simp [hc]
    simp [addTool, callTool, h1, hcond, hd, hu, hne, hs, hconn, hr]

/-- C2 witness: with the only response arriving at 30000 ms, the wait
times out (the late response changes nothing) and the suspended call
surfaces the timeout as a tool-level failure. -/
theorem elicitation_wait_timeout_witness :
    runWait (scheduleEvents [(30000, "accept")]) = ⟨some .timedOut⟩ ∧
      callTool (addTool ⟨-32402, 2, 3, "s1", 7, "e1", [("s1", ⟨true⟩)],
          .failed ⟨some (-32402), "Payment required", some ⟨some "https://pay.example/x", some "0.01"⟩⟩,
          .timedOut, .paid⟩).2 = ⟨[⟨"text", timeoutMessage⟩], true⟩ := by
  have h := elicitation_wait_timeout [(30000, "accept")] (by decide)
  refine ⟨h.1, ?_⟩
  exact h.2.2.1
    ⟨-32402, 2, 3, "s1", 7, "e1", [("s1", ⟨true⟩)],
      .failed ⟨some (-32402), "Payment required", some ⟨some "https://pay.example/x", some "0.01"⟩⟩,
      .timedOut, .paid⟩
    ⟨some (-32402), "Payment required", some ⟨some "https://pay.example/x", some "0.01"⟩⟩
    ⟨some "https://pay.example/x", some "0.01"⟩ "https://pay.example/x" ⟨true⟩
    rfl (Or.inl rfl) rfl rfl (by decide) (by decide) rfl rfl

/-- C7: in a well-formed registry (both maps share the same duplicate-free
key list), a session id resolves in one map exactly when it resolves in
the other, so it names exactly one (server, transport) pair; closing a
session removes it from both maps together, preserving well-formedness
(no dangling half-entry); every POST dispatch preserves well-formedness
when the generated id is fresh (so at most one live session per id);
and after a close, any request referencing the closed id changes nothing
and is never answered with session reuse or creation — the id is not
resumable. -/
theorem session_registry_lifecycle (st : Registry) (sid : String) (hwf : st.wf) :
    ((List.lookup sid st.servers).isSome ↔ (List.lookup sid st.transports).isSome) ∧
      (List.lookup sid (st.close sid).servers = none ∧
        List.lookup sid (st.close sid).transports = none) ∧
      (st.close sid).wf ∧
      (∀ body sessionId freshSid srv trp, freshSid ∉ st.servers.map Prod.fst →
        (handlePost st body sessionId freshSid srv trp).1.wf) ∧
      (sid ≠ "" → ∀ body freshSid srv trp,
        (handlePost (st.close sid) body (some sid) freshSid srv trp).1 = st.close sid ∧
        ∀ s, (handlePost (st.close sid) body (some sid) freshSid srv trp).2 ≠ .reused s ∧
          (handlePost (st.close sid) body (some sid) freshSid srv trp).2 ≠ .created s) := by
  refine ⟨?_, ⟨lookup_filter_self _ _, lookup_filter_self _ _⟩, ⟨?_, ?_⟩, ?_, ?_⟩
  · rw [lookup_isSome_iff, lookup_isSome_iff, hwf.1]
  · show (st.servers.filter fun p => p.1 != sid).map Prod.fst
      = (st.transports.filter fun p => p.1 != sid).map Prod.fst
    rw [map_fst_filter_bne, map_fst_filter_bne, hwf.1]
  · show ((st.servers.filter fun p => p.1 != sid).map Prod.fst).Nodup
    rw [map_fst_filter_bne]
    exact hwf.2.filter _
  · intro body sessionId freshSid srv trp hfresh
    unfold handlePost
    split
    · exact hwf
    · split
      · exact hwf
      · split
        · show ((freshSid, srv) :: st.servers).map Prod.fst
              = ((freshSid, trp) :: st.transports).map Prod.fst ∧
            (((freshSid, srv) :: st.servers).map Prod.fst).Nodup
          refine ⟨?_, ?_⟩
          · simp only [List.map_cons]
            rw [hwf.1]
          · simp only [List.map_cons]
            exact List.nodup_cons.mpr ⟨hfresh, hwf.2⟩
        · exact hwf
  · intro hne body freshSid srv trp
    have hlook : List.lookup sid (st.close sid).transports = none :=
      lookup_filter_self _ _
    by_cases h1 : (isInitRequest body && !body.hasElicitationCap) = true
    · simp [handlePost, h1]
    · have hsid : sidTruthy (some sid) = true := by simp [sidTruthy, hne]
      simp [handlePost, h1, hsid, hlook]

/-- C7 witness: closing session "a" in the one-session registry removes
it from both maps. -/
theorem session_registry_lifecycle_witness :
    List.lookup "a" ((⟨[("a", 1)], [("a", 2)]⟩ : Registry).close "a").servers = none ∧
      List.lookup "a" ((⟨[("a", 1)], [("a", 2)]⟩ : Registry).close "a").transports = none :=
  (session_registry_lifecycle ⟨[("a", 1)], [("a", 2)]⟩ "a"
    (by exact ⟨rfl, by decide⟩)).2.1
